import Mathlib

/-!
Verification of the TriFinger simulation control/observation core: a shallow
embedding of `trifinger_platform.py` (the platform facade with its single-slot
object-pose and camera caches and its action log) and of `base_finger.py`
(finger topology and connection lifecycle).

Python floats are modelled by rationals, mutable attributes by explicit state
passing, raisable errors by `Except`.  Repository code that is not among the
embedded sources (the robot stepper `SimFinger` and the finger-type table
`finger_types_data`) is modelled from the specification; every such definition
carries a doc comment starting with `Modelled from the spec:`.
-/

namespace TriFingerSim

/-! ## Finger topology (`base_finger.py`) -/

/-- Modelled from the spec: the finger-type enumeration provided by the
missing `finger_types_data` module — one-finger and three-finger variants
plus the deprecated aliases named in the sources (`single`, `tri`). -/
inductive FingerType
  | fingerone
  | trifingerone
  | trifingerpro
  | single
  | tri
  deriving DecidableEq

/-- Modelled from the spec: `finger_types_data.get_number_of_fingers`,
1 for the one-finger variants and 3 for the three-finger variants. -/
def getNumberOfFingers : FingerType → ℕ
  | .fingerone => 1
  | .single => 1
  | _ => 3

/-- The deprecated aliases, exactly the membership test
`self.finger_type in ["single", "tri"]` of `__set_finger_type_dependency`. -/
def isDeprecatedFingerType : FingerType → Bool
  | .single => true
  | .tri => true
  | _ => false

/-- The replacement named by the deprecation warning text in the sources
(use `fingerone` and `trifingerone` instead of `single` and `tri`). -/
def nonDeprecatedAlias : FingerType → FingerType
  | .single => .fingerone
  | .tri => .trifingerone
  | ft => ft

/-- The link-name and tip-link-name lists built by
`BaseFinger.__init_joint_lists`, as a function of the number of fingers:
the one-finger branch when it is 1, the three-finger branch otherwise. -/
def initJointLists (numberOfFingers : ℕ) : List String × List String :=
  if numberOfFingers = 1 then
    (["finger_upper_link", "finger_middle_link", "finger_lower_link"],
     ["finger_tip_link"])
  else
    (["finger_upper_link_0", "finger_middle_link_0", "finger_lower_link_0",
      "finger_upper_link_120", "finger_middle_link_120",
      "finger_lower_link_120", "finger_upper_link_240",
      "finger_middle_link_240", "finger_lower_link_240"],
     ["finger_tip_link_0", "finger_tip_link_120", "finger_tip_link_240"])

/-- Outcome of the `BaseFinger` construction steps relevant to topology:
the finger type, its number of fingers, the joint lists, and how many
deprecation warnings were emitted. -/
structure BaseFinger where
  fingerType : FingerType
  numberOfFingers : ℕ
  linkNames : List String
  tipLinkNames : List String
  deprecationWarnings : ℕ
  deriving DecidableEq

/-- Construction path of `BaseFinger.__init__`: resolve the type-dependent
data (`__set_finger_type_dependency`, which emits one non-fatal warning for
a deprecated alias and proceeds) and build the joint lists
(`__init_joint_lists`). -/
def mkBaseFinger (ft : FingerType) : BaseFinger :=
  let n := getNumberOfFingers ft
  { fingerType := ft
    numberOfFingers := n
    linkNames := (initJointLists n).1
    tipLinkNames := (initJointLists n).2
    deprecationWarnings := if isDeprecatedFingerType ft then 1 else 0 }

/-- The connection state seen by `BaseFinger`: the `enable_simulation` flag
and whether a physics client is currently connected
(`pybullet.isConnected`). -/
structure Connector where
  enableSimulation : Bool
  connected : Bool
  deriving DecidableEq

/-- `BaseFinger._disconnect_from_simulation`: when simulation is enabled,
disconnect the backend if it is connected and clear the flag; otherwise do
nothing. -/
def disconnectFromSimulation (c : Connector) : Connector :=
  if c.enableSimulation then
    let c1 := if c.connected then { c with connected := false } else c
    { c1 with enableSimulation := false }
  else c

/-! ## Platform facade (`trifinger_platform.py`) -/

/-- State of the external physics backend that the facade samples: the pose
of the cube (`self.cube.get_state()`) and the three rendered camera images
(`self.tricamera.get_images()`, one image per camera). -/
structure World where
  cubePosition : List ℚ
  cubeOrientation : List ℚ
  images : ℕ × ℕ × ℕ
  deriving DecidableEq

/-- Pure-python `ObjectPose`: position, orientation, an optional timestamp
(`None` until filled in) and a confidence value. -/
structure ObjectPose where
  position : List ℚ
  orientation : List ℚ
  timestamp : Option ℚ
  confidence : ℚ
  deriving DecidableEq

/-- Pure-python `CameraObservation`: an optional image and an optional
timestamp. -/
structure CameraObservation where
  image : Option ℕ
  timestamp : Option ℚ
  deriving DecidableEq

/-- Pure-python `TriCameraObservation`: the observations of the three
cameras, in order. -/
structure TriCameraObservation where
  cameras : List CameraObservation
  deriving DecidableEq

/-- One record of the action log, as appended by `append_desired_action`:
the returned time index and the four value arrays of the action. -/
structure LogEntry where
  t : ℕ
  torque : List ℚ
  position : List ℚ
  position_kp : List ℚ
  position_kd : List ℚ
  deriving DecidableEq

/-- The `_action_log` dictionary: initial robot position, initial object
pose, the per-step records, and the final object pose written by
`store_action_log`. -/
structure ActionLog where
  initial_robot_position : List ℚ
  initial_object_pose_position : List ℚ
  initial_object_pose_orientation : List ℚ
  actions : List LogEntry
  final_object_pose : Option (List ℚ × List ℚ)
  deriving DecidableEq

/-- A desired action: torque, position and the two gain arrays. -/
structure Action where
  torque : List ℚ
  position : List ℚ
  position_kp : List ℚ
  position_kd : List ℚ
  deriving DecidableEq

/-- The errors the facade can raise: `ValueError` for an invalid time
index, `RuntimeError` for disabled cameras, `AttributeError` for reading
the never-assigned cache attribute of a fresh platform. -/
inductive PlatformError
  | valueError
  | runtimeError
  | attributeError
  deriving DecidableEq

/-- Modelled from the spec: `SimFinger.get_timestamp_ms` of the missing
stepper — the timestamp in milliseconds of time index `t`, at the fixed
time step of 0.004 s (4 ms) per step. -/
def getTimestampMs (t : ℕ) : ℚ := (t : ℚ) * 4

/-- Modelled from the spec: `SimFinger.append_desired_action` of the
missing stepper advances the simulation by exactly one step and returns
the index of the step just completed. -/
def simFingerStep (timeIndex : ℕ) : ℕ := timeIndex + 1

/-- Modelled from the spec: the stepper's initial time-index convention —
the index held before any action, chosen so that the first append returns
index 1 as in the spec's scenario. -/
def simFingerInitialTimeIndex : ℕ := 0

/-- The mutable state of a `TriFingerPlatform`: camera flag, the stepper's
current time index, the backend world, the two single-slot caches
(`_object_pose_t`, `_camera_observation_t`; `none` while the attribute was
never assigned) and the action log. -/
structure Platform where
  enableCameras : Bool
  timeIndex : ℕ
  world : World
  objectPoseCache : Option ObjectPose
  cameraObservationCache : Option TriCameraObservation
  actionLog : ActionLog
  deriving DecidableEq

/-- The hard-coded initial finger configuration
`[0.0, deg2rad(-70), deg2rad(-130)] * 3`, kept in degrees here: the
radian conversion is a fixed real factor that no proved property touches,
and degrees keep the values rational. -/
def initialRobotPosition : List ℚ :=
  [0, -70, -130, 0, -70, -130, 0, -70, -130]

/-- `TriFingerPlatform.__init__`: cameras enabled as requested, caches
never assigned, the cube placed at the initial object pose, and the action
log seeded with the initial robot position and initial object pose. -/
def mkPlatform (enableCameras : Bool) (w : World) : Platform :=
  { enableCameras := enableCameras
    timeIndex := simFingerInitialTimeIndex
    world := w
    objectPoseCache := none
    cameraObservationCache := none
    actionLog :=
      { initial_robot_position := initialRobotPosition
        initial_object_pose_position := w.cubePosition
        initial_object_pose_orientation := w.cubeOrientation
        actions := []
        final_object_pose := none } }

/-- `TriFingerPlatform._get_current_object_pose(t)`: sample the cube state
from the backend, confidence 1.0, timestamp `get_timestamp_ms(t)` when `t`
is given and `None` otherwise. -/
def getCurrentObjectPose (p : Platform) (t : Option ℕ) : ObjectPose :=
  { position := p.world.cubePosition
    orientation := p.world.cubeOrientation
    timestamp := t.map getTimestampMs
    confidence := 1 }

/-- `TriFingerPlatform._get_current_camera_observation(t)`: render the
three images and stamp each camera with `get_timestamp_ms(t)` when `t` is
given and `None` otherwise. -/
def getCurrentCameraObservation (p : Platform) (t : Option ℕ) :
    TriCameraObservation :=
  let ts := t.map getTimestampMs
  { cameras :=
      [{ image := some p.world.images.1, timestamp := ts },
       { image := some p.world.images.2.1, timestamp := ts },
       { image := some p.world.images.2.2, timestamp := ts }] }

/-- `TriFingerPlatform.append_desired_action(action)`: sample the object
pose (and camera images when cameras are enabled) from the pre-step state,
advance the stepper by one step obtaining `t` (the backend world evolving
by the physics `f`), stamp the samples with `get_timestamp_ms(t) / 1000`,
append the action record to the log, and return `t`. -/
def appendDesiredAction (f : World → World) (p : Platform) (a : Action) :
    Platform × ℕ :=
  let poseSample := getCurrentObjectPose p none
  let cameraSample : Option TriCameraObservation :=
    if p.enableCameras then some (getCurrentCameraObservation p none)
    else p.cameraObservationCache
  let t := simFingerStep p.timeIndex
  let worldAfter := f p.world
  let cameraTimestampS : ℚ := getTimestampMs t / 1000
  let stampedPose := { poseSample with timestamp := some cameraTimestampS }
  let stampedCamera : Option TriCameraObservation :=
    if p.enableCameras then
      cameraSample.map fun obs =>
        { cameras :=
            obs.cameras.map fun c => { c with timestamp := some cameraTimestampS } }
    else cameraSample
  let entry : LogEntry :=
    { t := t
      torque := a.torque
      position := a.position
      position_kp := a.position_kp
      position_kd := a.position_kd }
  ({ p with
      timeIndex := t
      world := worldAfter
      objectPoseCache := some stampedPose
      cameraObservationCache := stampedCamera
      actionLog :=
        { p.actionLog with actions := p.actionLog.actions ++ [entry] } },
   t)

/-- `TriFingerPlatform.get_object_pose(t)`: the cached pose for
`t == current`, a freshly sampled pose for `t == current + 1`, and
`ValueError` for any other `t`; reading the cache before it was ever
assigned is an `AttributeError`. -/
def getObjectPose (p : Platform) (t : ℤ) : Except PlatformError ObjectPose :=
  if t = (p.timeIndex : ℤ) then
    match p.objectPoseCache with
    | some pose => Except.ok pose
    | none => Except.error PlatformError.attributeError
  else if t = (p.timeIndex : ℤ) + 1 then
    Except.ok (getCurrentObjectPose p (some (p.timeIndex + 1)))
  else
    Except.error PlatformError.valueError

/-- `TriFingerPlatform.get_camera_observation(t)`: `RuntimeError` when
cameras were not enabled at construction, decided before any time-index
check; otherwise the same validity window as for object poses. -/
def getCameraObservation (p : Platform) (t : ℤ) :
    Except PlatformError TriCameraObservation :=
  if p.enableCameras = false then
    Except.error PlatformError.runtimeError
  else if t = (p.timeIndex : ℤ) then
    match p.cameraObservationCache with
    | some obs => Except.ok obs
    | none => Except.error PlatformError.attributeError
  else if t = (p.timeIndex : ℤ) + 1 then
    Except.ok (getCurrentCameraObservation p (some (p.timeIndex + 1)))
  else
    Except.error PlatformError.valueError

/-- `TriFingerPlatform.store_action_log(filename)`: query the object pose
at the current time index, record it as the final object pose, and return
the serialized log (the JSON file contents are modelled by the log
structure itself). -/
def storeActionLog (p : Platform) : Except PlatformError ActionLog :=
  match getObjectPose p (p.timeIndex : ℤ) with
  | Except.error e => Except.error e
  | Except.ok pose =>
      Except.ok
        { p.actionLog with
            final_object_pose := some (pose.position, pose.orientation) }

/-- A sequence of `append_desired_action` calls under the physics `f`. -/
def runActions (f : World → World) (p : Platform) (acts : List Action) :
    Platform :=
  acts.foldl (fun q a => (appendDesiredAction f q a).1) p

/-- The log entries that `acts` should produce when the stepper stood at
time index `t0` before the first of them: the i-th entry pairs the
returned index `t0 + i + 1` with the exact value arrays of the i-th
action. -/
def expectedLogEntries (t0 : ℕ) : List Action → List LogEntry
  | [] => []
  | a :: as =>
      { t := t0 + 1
        torque := a.torque
        position := a.position
        position_kp := a.position_kp
        position_kd := a.position_kd } :: expectedLogEntries (t0 + 1) as

/-- A concrete backend state used by the witnesses. -/
def sampleWorld : World :=
  { cubePosition := [0, 0, 1]
    cubeOrientation := [0, 0, 0, 1]
    images := (10, 20, 30) }

/-- A concrete action used by the witnesses. -/
def sampleAction : Action :=
  { torque := [1, 2, 3]
    position := [4, 5, 6]
    position_kp := [7, 8, 9]
    position_kd := [10, 11, 12] }

/-! ## Helper lemmas -/

theorem append_snd (f : World → World) (p : Platform) (a : Action) :
    (appendDesiredAction f p a).2 = p.timeIndex + 1 := rfl

theorem append_fst_timeIndex (f : World → World) (p : Platform) (a : Action) :
    ((appendDesiredAction f p a).1).timeIndex = p.timeIndex + 1 := rfl

theorem append_enableCameras (f : World → World) (p : Platform) (a : Action) :
    ((appendDesiredAction f p a).1).enableCameras = p.enableCameras := rfl

theorem append_poseCache (f : World → World) (p : Platform) (a : Action) :
    ((appendDesiredAction f p a).1).objectPoseCache =
      some { position := p.world.cubePosition
             orientation := p.world.cubeOrientation
             timestamp := some (getTimestampMs (p.timeIndex + 1) / 1000)
             confidence := 1 } := rfl

theorem append_cameraCache_enabled (f : World → World) (p : Platform)
    (a : Action) (h : p.enableCameras = true) :
    ((appendDesiredAction f p a).1).cameraObservationCache =
      some { cameras :=
        [{ image := some p.world.images.1
           timestamp := some (getTimestampMs (p.timeIndex + 1) / 1000) },
         { image := some p.world.images.2.1
           timestamp := some (getTimestampMs (p.timeIndex + 1) / 1000) },
         { image := some p.world.images.2.2
           timestamp := some (getTimestampMs (p.timeIndex + 1) / 1000) }] } := by
  simp [appendDesiredAction, getCurrentCameraObservation, simFingerStep, h]

theorem append_log_actions (f : World → World) (p : Platform) (a : Action) :
    ((appendDesiredAction f p a).1).actionLog.actions =
      p.actionLog.actions ++
        [{ t := p.timeIndex + 1
           torque := a.torque
           position := a.position
           position_kp := a.position_kp
           position_kd := a.position_kd }] := rfl

theorem runActions_nil (f : World → World) (p : Platform) :
    runActions f p [] = p := rfl

theorem runActions_cons (f : World → World) (p : Platform) (a : Action)
    (as : List Action) :
    runActions f p (a :: as) =
      runActions f (appendDesiredAction f p a).1 as := rfl

theorem runActions_enableCameras (f : World → World) (as : List Action) :
    ∀ p : Platform, (runActions f p as).enableCameras = p.enableCameras := by
  induction as with
  | nil => intro p; rfl
  | cons a as ih =>
      intro p
      rw [runActions_cons, ih, append_enableCameras]

theorem append_cameraCache_isSome (f : World → World) (p : Platform)
    (a : Action) (h : p.enableCameras = true) :
    (((appendDesiredAction f p a).1).cameraObservationCache).isSome = true := by
  rw [append_cameraCache_enabled f p a h]
  rfl

theorem runActions_caches_isSome (f : World → World) (as : List Action) :
    ∀ p : Platform, as ≠ [] →
      ((runActions f p as).objectPoseCache).isSome = true ∧
      (p.enableCameras = true →
        ((runActions f p as).cameraObservationCache).isSome = true) := by
  induction as with
  | nil => intro p h; exact absurd rfl h
  | cons a as ih =>
      intro p _
      rw [runActions_cons]
      by_cases has : as = []
      · subst has
        rw [runActions_nil]
        refine ⟨?_, fun hec => append_cameraCache_isSome f p a hec⟩
        rw [append_poseCache]
        rfl
      · have h2 := ih (appendDesiredAction f p a).1 has
        refine ⟨h2.1, fun hec => h2.2 ?_⟩
        rw [append_enableCameras]
        exact hec

theorem getObjectPose_window (p : Platform) (t : ℤ)
    (hc : (p.objectPoseCache).isSome = true) :
    ((∃ pose, getObjectPose p t = Except.ok pose) ↔
      (t = (p.timeIndex : ℤ) ∨ t = (p.timeIndex : ℤ) + 1)) ∧
    (¬(t = (p.timeIndex : ℤ) ∨ t = (p.timeIndex : ℤ) + 1) →
      getObjectPose p t = Except.error PlatformError.valueError) := by
  unfold getObjectPose
  rcases hpose : p.objectPoseCache with _ | pose
  · rw [hpose] at hc; simp at hc
  · by_cases h1 : t = (p.timeIndex : ℤ)
    · simp [h1, hpose]
    · by_cases h2 : t = (p.timeIndex : ℤ) + 1
      · simp [h1, h2]
      · simp [h1, h2]

theorem getCameraObservation_window (p : Platform) (t : ℤ)
    (hec : p.enableCameras = true)
    (hc : (p.cameraObservationCache).isSome = true) :
    ((∃ obs, getCameraObservation p t = Except.ok obs) ↔
      (t = (p.timeIndex : ℤ) ∨ t = (p.timeIndex : ℤ) + 1)) ∧
    (¬(t = (p.timeIndex : ℤ) ∨ t = (p.timeIndex : ℤ) + 1) →
      getCameraObservation p t = Except.error PlatformError.valueError) := by
  unfold getCameraObservation
  rcases hobs : p.cameraObservationCache with _ | obs
  · rw [hobs] at hc; simp at hc
  · by_cases h1 : t = (p.timeIndex : ℤ)
    · simp [h1, hobs, hec]
    · by_cases h2 : t = (p.timeIndex : ℤ) + 1
      · simp [h1, h2, hec]
      · simp [h1, h2, hec]

theorem getObjectPose_current (p : Platform) (pose : ObjectPose)
    (h : p.objectPoseCache = some pose) :
    getObjectPose p (p.timeIndex : ℤ) = Except.ok pose := by
  rw [getObjectPose, if_pos rfl, h]

theorem getObjectPose_next (p : Platform) :
    getObjectPose p ((p.timeIndex : ℤ) + 1) =
      Except.ok (getCurrentObjectPose p (some (p.timeIndex + 1))) := by
  rw [getObjectPose, if_neg (by omega), if_pos rfl]

theorem getCameraObservation_current (p : Platform)
    (obs : TriCameraObservation) (hec : p.enableCameras = true)
    (h : p.cameraObservationCache = some obs) :
    getCameraObservation p (p.timeIndex : ℤ) = Except.ok obs := by
  rw [getCameraObservation, if_neg (by simp [hec]), if_pos rfl, h]

theorem getCameraObservation_next (p : Platform)
    (hec : p.enableCameras = true) :
    getCameraObservation p ((p.timeIndex : ℤ) + 1) =
      Except.ok (getCurrentCameraObservation p (some (p.timeIndex + 1))) := by
  rw [getCameraObservation, if_neg (by simp [hec]), if_neg (by omega),
    if_pos rfl]

theorem expectedLogEntries_length (as : List Action) :
    ∀ t0 : ℕ, (expectedLogEntries t0 as).length = as.length := by
  induction as with
  | nil => intro t0; rfl
  | cons a as ih =>
      intro t0
      simp [expectedLogEntries, ih]

theorem runActions_log (f : World → World) (as : List Action) :
    ∀ p : Platform,
      (runActions f p as).actionLog.actions =
        p.actionLog.actions ++ expectedLogEntries p.timeIndex as := by
  induction as with
  | nil => intro p; simp [runActions_nil, expectedLogEntries]
  | cons a as ih =>
      intro p
      rw [runActions_cons, ih, append_log_actions, append_fst_timeIndex]
      simp [expectedLogEntries]

theorem storeActionLog_ok (p : Platform)
    (hc : (p.objectPoseCache).isSome = true) :
    ∃ log, storeActionLog p = Except.ok log ∧
      log.actions = p.actionLog.actions := by
  unfold storeActionLog getObjectPose
  rcases hpose : p.objectPoseCache with _ | pose
  · rw [hpose] at hc; simp at hc
  · simp [hpose]

/-! ## Claims -/

/-- C4: two consecutive calls to `append_desired_action` return strictly
increasing time indices; under the stepper contract the second index is
exactly the first plus one. -/
theorem append_timeindex_monotonic (f : World → World) (p : Platform)
    (a1 a2 : Action) :
    (appendDesiredAction f (appendDesiredAction f p a1).1 a2).2 =
      (appendDesiredAction f p a1).2 + 1 ∧
    (appendDesiredAction f p a1).2 <
      (appendDesiredAction f (appendDesiredAction f p a1).1 a2).2 := by
  refine ⟨rfl, ?_⟩
  rw [append_snd, append_snd, append_fst_timeIndex]
  omega

/-- C5: with cameras disabled at construction, `get_camera_observation`
fails with the cameras-disabled `RuntimeError` for every time index `t`,
the disabled check being decided before any time-index validity check. -/
theorem camera_observation_disabled (p : Platform)
    (h : p.enableCameras = false) (t : ℤ) :
    getCameraObservation p t = Except.error PlatformError.runtimeError := by
  simp [getCameraObservation, h]

/-- C5 witness: a concrete cameras-off platform rejects even the currently
valid time index 0. -/
theorem camera_observation_disabled_witness :
    (mkPlatform false sampleWorld).enableCameras = false ∧
    getCameraObservation (mkPlatform false sampleWorld) 0 =
      Except.error PlatformError.runtimeError :=
  ⟨rfl, camera_observation_disabled (mkPlatform false sampleWorld) rfl 0⟩

/-- C6: for every valid finger type, the joint lists built at construction
have the documented lengths — 3 link names and 1 tip-link name when the
number of fingers is 1, and 9 link names and 3 tip-link names when it
is 3. -/
theorem joint_topology_lengths (ft : FingerType) :
    ((mkBaseFinger ft).numberOfFingers = 1 →
      (mkBaseFinger ft).linkNames.length = 3 ∧
      (mkBaseFinger ft).tipLinkNames.length = 1) ∧
    ((mkBaseFinger ft).numberOfFingers = 3 →
      (mkBaseFinger ft).linkNames.length = 9 ∧
      (mkBaseFinger ft).tipLinkNames.length = 3) := by
  cases ft <;> exact ⟨fun h => by simp_all [mkBaseFinger, getNumberOfFingers,
    initJointLists], fun h => by simp_all [mkBaseFinger, getNumberOfFingers,
    initJointLists]⟩

/-- C6 witness: the topology lengths evaluated at a one-finger and a
three-finger type. -/
theorem joint_topology_lengths_witness :
    ((mkBaseFinger FingerType.fingerone).linkNames.length = 3 ∧
     (mkBaseFinger FingerType.fingerone).tipLinkNames.length = 1) ∧
    ((mkBaseFinger FingerType.trifingerpro).linkNames.length = 9 ∧
     (mkBaseFinger FingerType.trifingerpro).tipLinkNames.length = 3) :=
  ⟨(joint_topology_lengths FingerType.fingerone).1 (by decide),
   (joint_topology_lengths FingerType.trifingerpro).2 (by decide)⟩

/-- C7: constructing with a deprecated finger type is not an error — the
construction function is total on them — one deprecation warning is
emitted, and the resulting topology is identical to the corresponding
non-deprecated type; in particular deprecated `tri` yields 9 links and
3 tips, identical to `trifingerone`. -/
theorem deprecated_type_topology (ft : FingerType)
    (h : isDeprecatedFingerType ft = true) :
    (mkBaseFinger ft).deprecationWarnings = 1 ∧
    (mkBaseFinger ft).linkNames =
      (mkBaseFinger (nonDeprecatedAlias ft)).linkNames ∧
    (mkBaseFinger ft).tipLinkNames =
      (mkBaseFinger (nonDeprecatedAlias ft)).tipLinkNames ∧
    (mkBaseFinger FingerType.tri).linkNames.length = 9 ∧
    (mkBaseFinger FingerType.tri).tipLinkNames.length = 3 := by
  cases ft <;> revert h <;> decide

/-- C7 witness: the deprecated type `tri` evaluated concretely. -/
theorem deprecated_type_topology_witness :
    isDeprecatedFingerType FingerType.tri = true ∧
    ((mkBaseFinger FingerType.tri).deprecationWarnings = 1 ∧
     (mkBaseFinger FingerType.tri).linkNames =
       (mkBaseFinger (nonDeprecatedAlias FingerType.tri)).linkNames ∧
     (mkBaseFinger FingerType.tri).tipLinkNames =
       (mkBaseFinger (nonDeprecatedAlias FingerType.tri)).tipLinkNames ∧
     (mkBaseFinger FingerType.tri).linkNames.length = 9 ∧
     (mkBaseFinger FingerType.tri).tipLinkNames.length = 3) :=
  ⟨by decide, deprecated_type_topology FingerType.tri (by decide)⟩

/-- C8: disconnecting is idempotent and total (no error path exists in the
model): after each of two consecutive calls the simulation-enabled flag is
false, and the second call changes nothing. -/
theorem disconnect_idempotent (c : Connector) :
    (disconnectFromSimulation c).enableSimulation = false ∧
    (disconnectFromSimulation
      (disconnectFromSimulation c)).enableSimulation = false ∧
    disconnectFromSimulation (disconnectFromSimulation c) =
      disconnectFromSimulation c := by
  rcases c with ⟨es, conn⟩
  cases es <;> cases conn <;> decide

/-- C10: on a freshly constructed platform both caches are unset, so
querying the object pose at the current time index — although that index
satisfies the validity window — fails with `AttributeError`, and so does
`store_action_log`, which performs that very query. -/
theorem fresh_platform_cache_unset (ec : Bool) (w : World) :
    (mkPlatform ec w).objectPoseCache = none ∧
    (mkPlatform ec w).cameraObservationCache = none ∧
    getObjectPose (mkPlatform ec w) ((mkPlatform ec w).timeIndex : ℤ) =
      Except.error PlatformError.attributeError ∧
    storeActionLog (mkPlatform ec w) =
      Except.error PlatformError.attributeError := by
  refine ⟨rfl, rfl, ?_, ?_⟩ <;>
    simp [mkPlatform, getObjectPose, storeActionLog,
      simFingerInitialTimeIndex]

/-- C1: after at least one `append_desired_action`, `get_object_pose(t)`
(and `get_camera_observation(t)` when cameras were enabled at
construction) returns a result exactly when `t` equals the current time
index or the current time index plus one, and raises the invalid-index
`ValueError` for every other integer `t`. -/
theorem query_validity_window (f : World → World) (ec : Bool) (w : World)
    (acts : List Action) (h : acts ≠ []) (t : ℤ) :
    ((∃ pose,
        getObjectPose (runActions f (mkPlatform ec w) acts) t =
          Except.ok pose) ↔
      (t = ((runActions f (mkPlatform ec w) acts).timeIndex : ℤ) ∨
       t = ((runActions f (mkPlatform ec w) acts).timeIndex : ℤ) + 1)) ∧
    (¬(t = ((runActions f (mkPlatform ec w) acts).timeIndex : ℤ) ∨
       t = ((runActions f (mkPlatform ec w) acts).timeIndex : ℤ) + 1) →
      getObjectPose (runActions f (mkPlatform ec w) acts) t =
        Except.error PlatformError.valueError) ∧
    (ec = true →
      ((∃ obs,
          getCameraObservation (runActions f (mkPlatform ec w) acts) t =
            Except.ok obs) ↔
        (t = ((runActions f (mkPlatform ec w) acts).timeIndex : ℤ) ∨
         t = ((runActions f (mkPlatform ec w) acts).timeIndex : ℤ) + 1)) ∧
      (¬(t = ((runActions f (mkPlatform ec w) acts).timeIndex : ℤ) ∨
         t = ((runActions f (mkPlatform ec w) acts).timeIndex : ℤ) + 1) →
        getCameraObservation (runActions f (mkPlatform ec w) acts) t =
          Except.error PlatformError.valueError)) := by
  have hcaches := runActions_caches_isSome f acts (mkPlatform ec w) h
  have hwin := getObjectPose_window (runActions f (mkPlatform ec w) acts) t
    hcaches.1
  refine ⟨hwin.1, hwin.2, fun hec => ?_⟩
  have hec0 : (mkPlatform ec w).enableCameras = true := hec
  have hec1 : (runActions f (mkPlatform ec w) acts).enableCameras = true := by
    rw [runActions_enableCameras]
    exact hec0
  exact getCameraObservation_window (runActions f (mkPlatform ec w) acts) t
    hec1 (hcaches.2 hec0)

/-- C1 witness: the window evaluated after one append on a concrete
cameras-on platform. -/
theorem query_validity_window_witness :
    ([sampleAction] : List Action) ≠ [] ∧
    (((∃ pose,
        getObjectPose (runActions id (mkPlatform true sampleWorld)
          [sampleAction]) 2 = Except.ok pose) ↔
      (2 = ((runActions id (mkPlatform true sampleWorld)
          [sampleAction]).timeIndex : ℤ) ∨
       2 = ((runActions id (mkPlatform true sampleWorld)
          [sampleAction]).timeIndex : ℤ) + 1)) ∧
    (¬(2 = ((runActions id (mkPlatform true sampleWorld)
          [sampleAction]).timeIndex : ℤ) ∨
       2 = ((runActions id (mkPlatform true sampleWorld)
          [sampleAction]).timeIndex : ℤ) + 1) →
      getObjectPose (runActions id (mkPlatform true sampleWorld)
          [sampleAction]) 2 =
        Except.error PlatformError.valueError) ∧
    (true = true →
      ((∃ obs,
          getCameraObservation (runActions id (mkPlatform true sampleWorld)
            [sampleAction]) 2 = Except.ok obs) ↔
        (2 = ((runActions id (mkPlatform true sampleWorld)
            [sampleAction]).timeIndex : ℤ) ∨
         2 = ((runActions id (mkPlatform true sampleWorld)
            [sampleAction]).timeIndex : ℤ) + 1)) ∧
      (¬(2 = ((runActions id (mkPlatform true sampleWorld)
            [sampleAction]).timeIndex : ℤ) ∨
         2 = ((runActions id (mkPlatform true sampleWorld)
            [sampleAction]).timeIndex : ℤ) + 1) →
        getCameraObservation (runActions id (mkPlatform true sampleWorld)
            [sampleAction]) 2 =
          Except.error PlatformError.valueError))) :=
  ⟨by simp,
   query_validity_window id true sampleWorld [sampleAction] (by simp) 2⟩

/-- C2: `append_desired_action` samples the object pose (and, with cameras
enabled, the three camera frames) from the pre-step backend state, returns
the stepper's new index `t` (the platform's new current index, one past
the previous), and a subsequent `get_object_pose(t)` returns exactly that
pre-step sample with confidence 1.0, stamped with the timestamp derived
from `t`. -/
theorem append_prestep_sample (f : World → World) (p : Platform)
    (a : Action) :
    (appendDesiredAction f p a).2 =
      ((appendDesiredAction f p a).1).timeIndex ∧
    (appendDesiredAction f p a).2 = p.timeIndex + 1 ∧
    getObjectPose (appendDesiredAction f p a).1
        ((appendDesiredAction f p a).2 : ℤ) =
      Except.ok
        { position := p.world.cubePosition
          orientation := p.world.cubeOrientation
          timestamp :=
            some (getTimestampMs (appendDesiredAction f p a).2 / 1000)
          confidence := 1 } ∧
    (p.enableCameras = true →
      getCameraObservation (appendDesiredAction f p a).1
          ((appendDesiredAction f p a).2 : ℤ) =
        Except.ok
          { cameras :=
              [{ image := some p.world.images.1
                 timestamp :=
                   some (getTimestampMs (appendDesiredAction f p a).2 / 1000) },
               { image := some p.world.images.2.1
                 timestamp :=
                   some (getTimestampMs (appendDesiredAction f p a).2 / 1000) },
               { image := some p.world.images.2.2
                 timestamp :=
                   some (getTimestampMs (appendDesiredAction f p a).2 / 1000) }] }) := by
  have hec1 : ∀ h : p.enableCameras = true,
      ((appendDesiredAction f p a).1).enableCameras = true := fun h => by
    rw [append_enableCameras]; exact h
  refine ⟨rfl, rfl, ?_, fun hec => ?_⟩
  · exact getObjectPose_current (appendDesiredAction f p a).1 _
      (append_poseCache f p a)
  · exact getCameraObservation_current (appendDesiredAction f p a).1 _
      (hec1 hec) (append_cameraCache_enabled f p a hec)

/-- C2 witness: one append on a concrete cameras-on platform. -/
theorem append_prestep_sample_witness :
    (mkPlatform true sampleWorld).enableCameras = true ∧
    ((appendDesiredAction id (mkPlatform true sampleWorld) sampleAction).2 =
      ((appendDesiredAction id (mkPlatform true sampleWorld)
          sampleAction).1).timeIndex ∧
    (appendDesiredAction id (mkPlatform true sampleWorld) sampleAction).2 =
      (mkPlatform true sampleWorld).timeIndex + 1 ∧
    getObjectPose
        (appendDesiredAction id (mkPlatform true sampleWorld)
          sampleAction).1
        ((appendDesiredAction id (mkPlatform true sampleWorld)
          sampleAction).2 : ℤ) =
      Except.ok
        { position := (mkPlatform true sampleWorld).world.cubePosition
          orientation := (mkPlatform true sampleWorld).world.cubeOrientation
          timestamp :=
            some (getTimestampMs (appendDesiredAction id
              (mkPlatform true sampleWorld) sampleAction).2 / 1000)
          confidence := 1 } ∧
    ((mkPlatform true sampleWorld).enableCameras = true →
      getCameraObservation
          (appendDesiredAction id (mkPlatform true sampleWorld)
            sampleAction).1
          ((appendDesiredAction id (mkPlatform true sampleWorld)
            sampleAction).2 : ℤ) =
        Except.ok
          { cameras :=
              [{ image := some (mkPlatform true sampleWorld).world.images.1
                 timestamp :=
                   some (getTimestampMs (appendDesiredAction id
                     (mkPlatform true sampleWorld) sampleAction).2 / 1000) },
               { image := some (mkPlatform true sampleWorld).world.images.2.1
                 timestamp :=
                   some (getTimestampMs (appendDesiredAction id
                     (mkPlatform true sampleWorld) sampleAction).2 / 1000) },
               { image := some (mkPlatform true sampleWorld).world.images.2.2
                 timestamp :=
                   some (getTimestampMs (appendDesiredAction id
                     (mkPlatform true sampleWorld) sampleAction).2 / 1000) }] })) :=
  ⟨rfl,
   append_prestep_sample id (mkPlatform true sampleWorld) sampleAction⟩

/-- C3: after `N ≥ 1` appends from a fresh platform, `store_action_log`
succeeds and the serialized log's `actions` array has exactly `N` entries
in call order, the i-th holding the i-th call's returned time index and
the exact torque, position, position_kp and position_kd arrays of the i-th
action passed in. -/
theorem action_log_roundtrip (f : World → World) (ec : Bool) (w : World)
    (acts : List Action) (h : acts ≠ []) :
    ∃ log,
      storeActionLog (runActions f (mkPlatform ec w) acts) =
        Except.ok log ∧
      log.actions.length = acts.length ∧
      log.actions = expectedLogEntries simFingerInitialTimeIndex acts := by
  have hcache := (runActions_caches_isSome f acts (mkPlatform ec w) h).1
  obtain ⟨log, hstore, hacts⟩ :=
    storeActionLog_ok (runActions f (mkPlatform ec w) acts) hcache
  refine ⟨log, hstore, ?_, ?_⟩
  · rw [hacts, runActions_log]
    simp [mkPlatform, expectedLogEntries_length]
  · rw [hacts, runActions_log]
    simp [mkPlatform]

/-- C3 witness: two appends on a concrete platform round-trip into a
two-entry log. -/
theorem action_log_roundtrip_witness :
    ([sampleAction, sampleAction] : List Action) ≠ [] ∧
    ∃ log,
      storeActionLog (runActions id (mkPlatform false sampleWorld)
        [sampleAction, sampleAction]) = Except.ok log ∧
      log.actions.length =
        ([sampleAction, sampleAction] : List Action).length ∧
      log.actions = expectedLogEntries simFingerInitialTimeIndex
        [sampleAction, sampleAction] :=
  ⟨by simp,
   action_log_roundtrip id false sampleWorld [sampleAction, sampleAction]
     (by simp)⟩

/-- C9: after an append returning `t`, the two serving branches stamp in
different units — the cached pose returned for `t` carries
`get_timestamp_ms(t) / 1000` (seconds) while the freshly computed pose
returned for `t + 1` carries `get_timestamp_ms(t + 1)` undivided
(milliseconds), 1000 times the seconds value of the same clock reading;
the camera observations behave identically. -/
theorem timestamp_unit_mismatch (f : World → World) (p : Platform)
    (a : Action) (h : p.enableCameras = true) :
    (∃ pose,
      getObjectPose (appendDesiredAction f p a).1
          ((appendDesiredAction f p a).2 : ℤ) = Except.ok pose ∧
      pose.timestamp =
        some (getTimestampMs (appendDesiredAction f p a).2 / 1000)) ∧
    (∃ pose,
      getObjectPose (appendDesiredAction f p a).1
          (((appendDesiredAction f p a).2 : ℤ) + 1) = Except.ok pose ∧
      pose.timestamp =
        some (getTimestampMs ((appendDesiredAction f p a).2 + 1))) ∧
    getTimestampMs ((appendDesiredAction f p a).2 + 1) =
      1000 * (getTimestampMs ((appendDesiredAction f p a).2 + 1) / 1000) ∧
    (∃ obs,
      getCameraObservation (appendDesiredAction f p a).1
          ((appendDesiredAction f p a).2 : ℤ) = Except.ok obs ∧
      ∀ c ∈ obs.cameras,
        c.timestamp =
          some (getTimestampMs (appendDesiredAction f p a).2 / 1000)) ∧
    (∃ obs,
      getCameraObservation (appendDesiredAction f p a).1
          (((appendDesiredAction f p a).2 : ℤ) + 1) = Except.ok obs ∧
      ∀ c ∈ obs.cameras,
        c.timestamp =
          some (getTimestampMs ((appendDesiredAction f p a).2 + 1))) := by
  have hec1 : ((appendDesiredAction f p a).1).enableCameras = true := by
    rw [append_enableCameras]; exact h
  refine ⟨?_, ?_, ?_, ?_, ?_⟩
  · exact ⟨_, getObjectPose_current (appendDesiredAction f p a).1 _
      (append_poseCache f p a), rfl⟩
  · exact ⟨_, getObjectPose_next (appendDesiredAction f p a).1, rfl⟩
  · show (((p.timeIndex + 1 + 1 : ℕ) : ℚ)) * 4 =
      1000 * ((((p.timeIndex + 1 + 1 : ℕ) : ℚ)) * 4 / 1000)
    ring
  · refine ⟨_, getCameraObservation_current (appendDesiredAction f p a).1 _
      hec1 (append_cameraCache_enabled f p a h), ?_⟩
    intro c hc
    fin_cases hc <;> rfl
  · refine ⟨_, getCameraObservation_next (appendDesiredAction f p a).1
      hec1, ?_⟩
    intro c hc
    fin_cases hc <;> rfl

/-- C9 witness: the two units observed concretely after one append. -/
theorem timestamp_unit_mismatch_witness :
    (mkPlatform true sampleWorld).enableCameras = true ∧
    ((∃ pose,
      getObjectPose
          (appendDesiredAction id (mkPlatform true sampleWorld)
            sampleAction).1
          ((appendDesiredAction id (mkPlatform true sampleWorld)
            sampleAction).2 : ℤ) = Except.ok pose ∧
      pose.timestamp =
        some (getTimestampMs (appendDesiredAction id
          (mkPlatform true sampleWorld) sampleAction).2 / 1000)) ∧
    (∃ pose,
      getObjectPose
          (appendDesiredAction id (mkPlatform true sampleWorld)
            sampleAction).1
          (((appendDesiredAction id (mkPlatform true sampleWorld)
            sampleAction).2 : ℤ) + 1) = Except.ok pose ∧
      pose.timestamp =
        some (getTimestampMs ((appendDesiredAction id
          (mkPlatform true sampleWorld) sampleAction).2 + 1))) ∧
    getTimestampMs ((appendDesiredAction id (mkPlatform true sampleWorld)
        sampleAction).2 + 1) =
      1000 * (getTimestampMs ((appendDesiredAction id
        (mkPlatform true sampleWorld) sampleAction).2 + 1) / 1000) ∧
    (∃ obs,
      getCameraObservation
          (appendDesiredAction id (mkPlatform true sampleWorld)
            sampleAction).1
          ((appendDesiredAction id (mkPlatform true sampleWorld)
            sampleAction).2 : ℤ) = Except.ok obs ∧
      ∀ c ∈ obs.cameras,
        c.timestamp =
          some (getTimestampMs (appendDesiredAction id
            (mkPlatform true sampleWorld) sampleAction).2 / 1000)) ∧
    (∃ obs,
      getCameraObservation
          (appendDesiredAction id (mkPlatform true sampleWorld)
            sampleAction).1
          (((appendDesiredAction id (mkPlatform true sampleWorld)
            sampleAction).2 : ℤ) + 1) = Except.ok obs ∧
      ∀ c ∈ obs.cameras,
        c.timestamp =
          some (getTimestampMs ((appendDesiredAction id
            (mkPlatform true sampleWorld) sampleAction).2 + 1)))) :=
  ⟨rfl,
   timestamp_unit_mismatch id (mkPlatform true sampleWorld) sampleAction rfl⟩

end TriFingerSim
